import Mathlib

/-!
Verification development for the tuningtron repository (Equiron-AI/tuningtron).

The repository has two source files:
- `src/tuningtron/models.py`: a model-family registry (`ModelsFactory`) that
  maps an architecture identifier to a prompt-formatting strategy
  (`GemmaModel`, `CohereModel`, `QwenModel`, all subclasses of `BaseModel`).
- `src/tuningtron/tuner.py`: a training-configuration builder (`Tuner`) that
  derives precision mode, optimizer, attention hint and an optional
  deepspeed offload block from hardware detection, plus the `sft` pipeline.

This file shallowly embeds the decision logic of those files: pure Python
functions become Lean functions, Python exceptions become `Except` values,
and the ambient hardware/environment state read by `torch.cuda` and
`os.environ` becomes explicit function arguments.
-/

namespace Tuningtron

/-- Python's `str.startswith(pre)`: the characters of `pre` are a prefix
of the characters of `s`. -/
def py_startswith (s pre : String) : Bool :=
  List.isPrefixOf pre.data s.data

/-- Python's `str.strip()`: remove leading and trailing whitespace. -/
def py_strip (s : String) : String :=
  String.mk (((s.data.dropWhile Char.isWhitespace).reverse.dropWhile
    Char.isWhitespace).reverse)

/-- A dataset row as consumed by `prepare_chat_template`
(models.py): string fields `instruct`, `input`, `output`. -/
structure Record where
  instruct : String
  input : String
  output : String
  deriving DecidableEq, Repr

/-- One role/content pair of a chat template (a Python dict
`{"role": ..., "content": ...}` in models.py). -/
structure Message where
  role : String
  content : String
  deriving DecidableEq, Repr

/-- `GemmaModel.prepare_chat_template` (models.py lines 44-48):
user turn made of instruct and input joined by three newlines, then an
assistant turn with the output; every field stripped. -/
def GemmaModel.prepare_chat_template (record : Record) : List Message :=
  [{ role := "user",      content := py_strip record.instruct ++ "\n\n\n" ++ py_strip record.input },
   { role := "assistant", content := py_strip record.output }]

/-- `CohereModel.prepare_chat_template` (models.py lines 55-60):
system, user, assistant turns from the stripped instruct, input, output. -/
def CohereModel.prepare_chat_template (record : Record) : List Message :=
  [{ role := "system",    content := py_strip record.instruct },
   { role := "user",      content := py_strip record.input },
   { role := "assistant", content := py_strip record.output }]

/-- `QwenModel.prepare_chat_template` (models.py lines 67-72):
system, user, assistant turns from the stripped instruct, input, output. -/
def QwenModel.prepare_chat_template (record : Record) : List Message :=
  [{ role := "system",    content := py_strip record.instruct },
   { role := "user",      content := py_strip record.input },
   { role := "assistant", content := py_strip record.output }]

/-- The three concrete strategy classes `ModelsFactory.get_model_config`
can return (models.py lines 82-87). -/
inductive ModelStrategy where
  | gemma
  | cohere
  | qwen
  deriving DecidableEq, Repr

/-- Dispatch of `prepare_chat_template` through the strategy object
returned by the factory. -/
def ModelStrategy.prepare_chat_template : ModelStrategy → Record → List Message
  | .gemma => GemmaModel.prepare_chat_template
  | .cohere => CohereModel.prepare_chat_template
  | .qwen => QwenModel.prepare_chat_template

/-- `ModelsFactory.get_model_config` (models.py lines 79-89).
`model_type` is `config.model_type` as resolved by `AutoConfig` for
`base_model_id`; the chain of `startswith` tests selects the strategy and
the final `else` raises `Exception("Unsupported model type: " + base_model_id)`. -/
def ModelsFactory.get_model_config (base_model_id : String) (model_type : String) :
    Except String ModelStrategy :=
  if py_startswith model_type "gemma" then
    Except.ok ModelStrategy.gemma
  else if py_startswith model_type "cohere" then
    Except.ok ModelStrategy.cohere
  else if py_startswith model_type "qwen" then
    Except.ok ModelStrategy.qwen
  else
    Except.error ("Unsupported model type: " ++ base_model_id)

/-- Instance attributes assigned by `BaseModel.__init__`
(models.py lines 9-13): `base_model_id`, `config`, `tokenizer`,
`target_modules`. No other attribute is ever assigned on a strategy
object; in particular `response_template` is not. -/
def BaseModel.instance_attributes : List String :=
  ["base_model_id", "config", "tokenizer", "target_modules"]

/-- `GemmaModel.__init__` only calls `BaseModel.__init__`
(models.py lines 41-42), so the instance attributes are the same. -/
def GemmaModel.instance_attributes : List String :=
  BaseModel.instance_attributes

/-- `CohereModel.__init__` only calls `BaseModel.__init__`
(models.py lines 52-53), so the instance attributes are the same. -/
def CohereModel.instance_attributes : List String :=
  BaseModel.instance_attributes

/-- `QwenModel.__init__` only calls `BaseModel.__init__`
(models.py lines 64-65), so the instance attributes are the same. -/
def QwenModel.instance_attributes : List String :=
  BaseModel.instance_attributes

/-- Attribute set of the strategy the factory returned. -/
def ModelStrategy.instance_attributes : ModelStrategy → List String
  | .gemma => GemmaModel.instance_attributes
  | .cohere => CohereModel.instance_attributes
  | .qwen => QwenModel.instance_attributes

/-- The `zero_optimization` sub-dictionary of
`Tuner.get_deepspeed_config` (tuner.py lines 246-256). -/
structure ZeroOptimization where
  stage : Nat
  offload_optimizer_device : String
  offload_param_device : String
  overlap_comm : Bool
  sub_group_size : Nat
  reduce_bucket_size : String
  stage3_prefetch_bucket_size : String
  stage3_param_persistence_threshold : String
  gather_16bit_weights_on_model_save : Bool
  deriving DecidableEq, Repr

/-- The dictionary returned by `Tuner.get_deepspeed_config`
(tuner.py lines 242-262). -/
structure DeepspeedConfig where
  zero_force_ds_cpu_optimizer : Bool
  bf16_enabled : String
  zero_optimization : ZeroOptimization
  gradient_accumulation_steps : String
  gradient_clipping : String
  steps_per_print : String
  train_batch_size : String
  train_micro_batch_size_per_gpu : String
  deriving DecidableEq, Repr

/-- `Tuner.get_deepspeed_config` (tuner.py lines 242-262): a constant
deepspeed ZeRO stage-3 configuration with cpu offload of optimizer state
and parameters. -/
def Tuner.get_deepspeed_config : DeepspeedConfig :=
  { zero_force_ds_cpu_optimizer := false
    bf16_enabled := "auto"
    zero_optimization :=
      { stage := 3
        offload_optimizer_device := "cpu"
        offload_param_device := "cpu"
        overlap_comm := true
        sub_group_size := 1000000000
        reduce_bucket_size := "auto"
        stage3_prefetch_bucket_size := "auto"
        stage3_param_persistence_threshold := "auto"
        gather_16bit_weights_on_model_save := true }
    gradient_accumulation_steps := "auto"
    gradient_clipping := "auto"
    steps_per_print := "auto"
    train_batch_size := "auto"
    train_micro_batch_size_per_gpu := "auto" }

/-- The hardware state `Tuner.__init__` reads through torch:
`torch.cuda.is_available()` and `torch.cuda.get_device_capability()[0]`. -/
structure HardwareEnv where
  cuda_available : Bool
  device_capability_major : Nat
  deriving DecidableEq, Repr

/-- The hyperparameter fields assigned by `Tuner.__init__`
(tuner.py lines 26-50). -/
structure TunerConfig where
  device_map : Option String
  deepspeed : Option DeepspeedConfig
  optim : String
  bf16 : Bool
  fp16 : Bool
  attn_implementation : Option String
  deriving DecidableEq, Repr

/-- The hyperparameter-derivation part of `Tuner.__init__`
(tuner.py lines 26-50), with the torch hardware queries made explicit.
Defaults are set first (lines 26-31); under `torch.cuda.is_available()`
the `enable_deepspeed` flag switches device map, deepspeed block and
optimizer (lines 33-38), then the capability test selects bf16 plus a
family-conditional attention hint, or fp16 (lines 40-47); without cuda
only bf16 is set (line 49). -/
def Tuner.init_hyperparams (hw : HardwareEnv) (enable_deepspeed : Bool)
    (model_type : String) : TunerConfig :=
  let device_map : Option String := some "auto"
  let deepspeed : Option DeepspeedConfig := none
  let optim : String := "adamw_8bit"
  let bf16 : Bool := false
  let fp16 : Bool := false
  let attn_implementation : Option String := none
  if hw.cuda_available then
    let device_map := if enable_deepspeed then none else device_map
    let deepspeed := if enable_deepspeed then some Tuner.get_deepspeed_config else deepspeed
    let optim := if enable_deepspeed then "adamw_torch" else optim
    if 8 ≤ hw.device_capability_major then
      let bf16 := true
      let attn_implementation : Option String :=
        if py_startswith model_type "gemma" then some "eager" else some "flash_attention_2"
      { device_map := device_map, deepspeed := deepspeed, optim := optim,
        bf16 := bf16, fp16 := fp16, attn_implementation := attn_implementation }
    else
      let fp16 := true
      { device_map := device_map, deepspeed := deepspeed, optim := optim,
        bf16 := bf16, fp16 := fp16, attn_implementation := attn_implementation }
  else
    let bf16 := true
    { device_map := device_map, deepspeed := deepspeed, optim := optim,
      bf16 := bf16, fp16 := fp16, attn_implementation := attn_implementation }

/-- `Tuner.print_cuda_info` (tuner.py lines 195-205): the first
statement is `os.environ['CUDA_VISIBLE_DEVICES']`, a dictionary lookup
that raises `KeyError` when the variable is absent; on success the value
is logged. The process environment is passed as an association list. -/
def Tuner.print_cuda_info (env_vars : List (String × String)) :
    Except String String :=
  match env_vars.lookup "CUDA_VISIBLE_DEVICES" with
  | some v => Except.ok v
  | none => Except.error "KeyError: CUDA_VISIBLE_DEVICES"

/-- The state `Tuner.__init__` builds when it completes. -/
structure TunerState where
  base_model_id : String
  model_config : ModelStrategy
  hyper : TunerConfig
  deriving DecidableEq, Repr

/-- `Tuner.__init__` (tuner.py lines 19-50), sequencing its statements:
first `self.print_cuda_info()` (line 20, propagating its KeyError), then
the family dispatch `ModelsFactory().get_model_config(base_model_id)`
(line 23, propagating the unsupported-model error), then the
hyperparameter derivation of lines 26-50. -/
def Tuner.init (env_vars : List (String × String)) (hw : HardwareEnv)
    (base_model_id : String) (model_type : String) (enable_deepspeed : Bool) :
    Except String TunerState := do
  let _ ← Tuner.print_cuda_info env_vars
  let mc ← ModelsFactory.get_model_config base_model_id model_type
  Except.ok
    { base_model_id := base_model_id
      model_config := mc
      hyper := Tuner.init_hyperparams hw enable_deepspeed model_type }

/-- Errors the `sft` pipeline can raise before reaching the trainer. -/
inductive SftError where
  | attributeError (attr : String)
  | unboundLocalError (name : String)
  deriving DecidableEq, Repr

/-- The column shape of the loaded dataset, as tested by
`"text" in dataset.column_names` and `"instruct" in dataset.column_names`
(tuner.py lines 92 and 96). -/
structure DatasetShape where
  has_text : Bool
  has_instruct : Bool
  deriving DecidableEq, Repr

/-- The data collator chosen at tuner.py lines 100-105. -/
inductive CollatorKind where
  | completionOnlyLM
  | languageModeling
  deriving DecidableEq, Repr

/-- What `Tuner.sft` has assembled when it reaches the trainer
invocation (tuner.py lines 115-120). -/
structure SftOutcome where
  lr_scheduler_type : String
  collator : CollatorKind
  deriving DecidableEq, Repr

/-- The value of the local variable `lr_scheduler_type` after the column
branches of `Tuner.sft` (tuner.py lines 92-98): assigned `"constant"`
when a `text` column is present, then overwritten with `"linear"` when an
`instruct` column is present; `none` models the variable never being
assigned. -/
def Tuner.sft_lr_scheduler_type (ds : DatasetShape) : Option String :=
  let lr : Option String := none
  let lr := if ds.has_text then some "constant" else lr
  if ds.has_instruct then some "linear" else lr

/-- The control flow of `Tuner.sft` between dataset preprocessing and the
trainer call (tuner.py lines 92-120), for a strategy whose instance
attributes are `strategy_attrs`. Lines 92-98 bind `lr_scheduler_type`;
lines 100-105 build the collator, where `comp_only` reads
`self.model_config.response_template`, an `AttributeError` when the
strategy has no such attribute; line 109 then reads `lr_scheduler_type`
to assemble the training arguments, an `UnboundLocalError` when no column
branch assigned it. An `Except.ok` value means the trainer is reached. -/
def Tuner.sft_pipeline (strategy_attrs : List String) (ds : DatasetShape)
    (comp_only : Bool) : Except SftError SftOutcome := do
  let lr := Tuner.sft_lr_scheduler_type ds
  let collator ←
    if comp_only then
      if "response_template" ∈ strategy_attrs then
        Except.ok CollatorKind.completionOnlyLM
      else
        Except.error (SftError.attributeError "response_template")
    else
      Except.ok CollatorKind.languageModeling
  let lr_value ←
    match lr with
    | some v => Except.ok v
    | none => Except.error (SftError.unboundLocalError "lr_scheduler_type")
  Except.ok { lr_scheduler_type := lr_value, collator := collator }


/-- Role sequence of a formatted prompt. -/
def roles (msgs : List Message) : List String :=
  msgs.map Message.role

/-- C1 (counterexample): with an accelerator whose capability major is 7
(low tier), distributed mode requested and a non-gemma family, the
builder still produces the distributed optimizer `"adamw_torch"` and the
deepspeed offload block, contradicting the claim that for every hardware
input other than high-capability-with-distributed no distributed
optimizer and no offload block are produced. -/
theorem init_low_capability_distributed_counterexample :
    (Tuner.init_hyperparams ⟨true, 7⟩ true "qwen2").optim = "adamw_torch" ∧
    (Tuner.init_hyperparams ⟨true, 7⟩ true "qwen2").deepspeed =
      some Tuner.get_deepspeed_config := by
  constructor <;> rfl

/-- C1 (amended): the distributed optimizer `"adamw_torch"` and the
deepspeed offload block are selected exactly when an accelerator is
present and distributed mode is requested, independently of the
capability tier; in every other case the optimizer stays `"adamw_8bit"`
and no offload block is produced. -/
theorem init_distributed_selection (hw : HardwareEnv) (enable_deepspeed : Bool)
    (model_type : String) :
    ((Tuner.init_hyperparams hw enable_deepspeed model_type).optim = "adamw_torch" ∧
     (Tuner.init_hyperparams hw enable_deepspeed model_type).deepspeed =
       some Tuner.get_deepspeed_config)
      ↔ (hw.cuda_available = true ∧ enable_deepspeed = true) := by
  obtain ⟨c, cap⟩ := hw
  cases c <;> cases enable_deepspeed <;>
    by_cases h : 8 ≤ cap <;>
      simp [Tuner.init_hyperparams, h]

/-- C2: for every model family (every `model_type` string), every
deepspeed flag and every capability reading, accelerator-absent hardware
makes `Tuner.__init__` select bf16 without fp16 and keep the default
optimizer `"adamw_8bit"`; the whole configuration is a constant,
independent of the family. -/
theorem init_no_accelerator_config (model_type : String)
    (enable_deepspeed : Bool) (cap : Nat) :
    Tuner.init_hyperparams ⟨false, cap⟩ enable_deepspeed model_type =
      { device_map := some "auto", deepspeed := none, optim := "adamw_8bit",
        bf16 := true, fp16 := false, attn_implementation := none } := by
  simp [Tuner.init_hyperparams]

/-- C3 (counterexample): with the accelerator-visibility variable absent
from the environment, `Tuner.__init__` does not complete its core logic:
it propagates the KeyError of the informational dump and returns no
state, even for an identifier whose family dispatch would succeed. -/
theorem init_missing_env_counterexample :
    Tuner.init [] ⟨true, 8⟩ "google/gemma-2-9b" "gemma2" true =
      Except.error "KeyError: CUDA_VISIBLE_DEVICES" ∧
    ModelsFactory.get_model_config "google/gemma-2-9b" "gemma2" =
      Except.ok ModelStrategy.gemma := by
  constructor <;> rfl

/-- C3 (amended): the accelerator-visibility environment value is read
during construction, and when it is absent the informational dump's
KeyError propagates out of `Tuner.__init__`: construction fails and
family dispatch and hyperparameter derivation do not complete. -/
theorem init_missing_env_aborts (env_vars : List (String × String))
    (hw : HardwareEnv) (base_model_id model_type : String)
    (enable_deepspeed : Bool)
    (h : env_vars.lookup "CUDA_VISIBLE_DEVICES" = none) :
    Tuner.init env_vars hw base_model_id model_type enable_deepspeed =
      Except.error "KeyError: CUDA_VISIBLE_DEVICES" := by
  simp [Tuner.init, Tuner.print_cuda_info, h, Bind.bind, Except.bind]

/-- Witness for `init_missing_env_aborts` at the empty environment. -/
theorem init_missing_env_aborts_witness :
    Tuner.init [] ⟨false, 0⟩ "m" "qwen2" false =
      Except.error "KeyError: CUDA_VISIBLE_DEVICES" :=
  init_missing_env_aborts [] ⟨false, 0⟩ "m" "qwen2" false rfl

/-- C4: an architecture identifier whose `model_type` matches none of the
prefixes gemma, cohere, qwen makes `ModelsFactory.get_model_config` fail
with the single unsupported-model error carrying the identifier, and no
strategy is constructed; a `model_type` matching a known prefix yields a
strategy and no error. -/
theorem factory_dispatch (base_model_id model_type : String) :
    (py_startswith model_type "gemma" = false →
     py_startswith model_type "cohere" = false →
     py_startswith model_type "qwen" = false →
      ModelsFactory.get_model_config base_model_id model_type =
        Except.error ("Unsupported model type: " ++ base_model_id)) ∧
    ((py_startswith model_type "gemma" = true ∨
      py_startswith model_type "cohere" = true ∨
      py_startswith model_type "qwen" = true) →
      ∃ s : ModelStrategy,
        ModelsFactory.get_model_config base_model_id model_type = Except.ok s) := by
  constructor
  · intro h1 h2 h3
    simp [ModelsFactory.get_model_config, h1, h2, h3]
  · intro h
    rcases h with h | h | h <;>
      simp [ModelsFactory.get_model_config, h] <;>
      by_cases h1 : py_startswith model_type "gemma" = true <;>
        by_cases h2 : py_startswith model_type "cohere" = true <;>
          simp [h1, h2]

/-- Witness for `factory_dispatch`: the unknown family llama fails with
the unsupported-model error; the known prefix cohere yields a strategy. -/
theorem factory_dispatch_witness :
    ModelsFactory.get_model_config "meta/llama-3" "llama" =
      Except.error "Unsupported model type: meta/llama-3" ∧
    ∃ s : ModelStrategy,
      ModelsFactory.get_model_config "CohereForAI/c4ai" "cohere" = Except.ok s :=
  ⟨(factory_dispatch "meta/llama-3" "llama").1 rfl rfl rfl,
   (factory_dispatch "CohereForAI/c4ai" "cohere").2 (Or.inr (Or.inl rfl))⟩

/-- C5: for every known family and every record, the produced prompt
contains exactly the roles specified for that family, in order: gemma
emits user then assistant; cohere and qwen emit system, user, assistant. -/
theorem strategy_roles (s : ModelStrategy) (record : Record) :
    roles (s.prepare_chat_template record) =
      match s with
      | ModelStrategy.gemma => ["user", "assistant"]
      | ModelStrategy.cohere => ["system", "user", "assistant"]
      | ModelStrategy.qwen => ["system", "user", "assistant"] := by
  cases s <;> rfl

/-- C6: for every strategy the factory can return and every dataset
shape, running the sft pipeline with the completion-only toggle enabled
fails with the AttributeError on `response_template` before the trainer
is reached, because no strategy class (all sharing `BaseModel`'s
attribute set) defines that attribute. -/
theorem sft_comp_only_attribute_error (s : ModelStrategy) (ds : DatasetShape) :
    Tuner.sft_pipeline s.instance_attributes ds true =
      Except.error (SftError.attributeError "response_template") ∧
    "response_template" ∉ BaseModel.instance_attributes := by
  refine ⟨?_, by decide⟩
  cases s <;> rfl

/-- C7: with an accelerator of capability major at least 8, the attention
hint is eager exactly for model types of the gemma family and
flash_attention_2 for every other family, so the two differ; with no
accelerator or a lower capability no attention hint is set. -/
theorem init_attn_hint (hw : HardwareEnv) (enable_deepspeed : Bool)
    (model_type : String) :
    (hw.cuda_available = true → 8 ≤ hw.device_capability_major →
      (Tuner.init_hyperparams hw enable_deepspeed model_type).attn_implementation =
        (if py_startswith model_type "gemma" then some "eager"
         else some "flash_attention_2")) ∧
    (hw.cuda_available = false ∨ hw.device_capability_major < 8 →
      (Tuner.init_hyperparams hw enable_deepspeed model_type).attn_implementation =
        none) ∧
    (Tuner.init_hyperparams ⟨true, 8⟩ enable_deepspeed "gemma2").attn_implementation ≠
      (Tuner.init_hyperparams ⟨true, 8⟩ enable_deepspeed "qwen2").attn_implementation := by
  obtain ⟨c, cap⟩ := hw
  refine ⟨?_, ?_, ?_⟩
  · intro hc hcap
    subst hc
    simp [Tuner.init_hyperparams, hcap]
  · intro h
    rcases h with h | h
    · subst h
      cases enable_deepspeed <;> simp [Tuner.init_hyperparams]
    · have hcap : ¬ 8 ≤ cap := by dsimp only at h; omega
      cases c <;> cases enable_deepspeed <;> simp [Tuner.init_hyperparams, hcap]
  · cases enable_deepspeed <;> simp [Tuner.init_hyperparams, py_startswith]

/-- Witness for `init_attn_hint`: capability 9 with a gemma model type
gives the eager hint; capability 7 gives no hint. -/
theorem init_attn_hint_witness :
    (Tuner.init_hyperparams ⟨true, 9⟩ false "gemma2").attn_implementation =
      (if py_startswith "gemma2" "gemma" then some "eager"
       else some "flash_attention_2") ∧
    (Tuner.init_hyperparams ⟨true, 7⟩ false "gemma2").attn_implementation = none :=
  ⟨(init_attn_hint ⟨true, 9⟩ false "gemma2").1 rfl (by decide),
   (init_attn_hint ⟨true, 7⟩ false "gemma2").2.1 (Or.inr (by decide))⟩

/-- C8: with an accelerator of capability major at least 8 and
distributed mode disabled, the builder selects bf16 (high-precision mode)
and produces no deepspeed offload block, keeping the default optimizer. -/
theorem init_high_capability_no_deepspeed (model_type : String) (cap : Nat)
    (h : 8 ≤ cap) :
    Tuner.init_hyperparams ⟨true, cap⟩ false model_type =
      { device_map := some "auto", deepspeed := none, optim := "adamw_8bit",
        bf16 := true, fp16 := false,
        attn_implementation :=
          if py_startswith model_type "gemma" then some "eager"
          else some "flash_attention_2" } := by
  simp [Tuner.init_hyperparams, h]

/-- Witness for `init_high_capability_no_deepspeed` at capability 8 with
a qwen model type. -/
theorem init_high_capability_no_deepspeed_witness :
    Tuner.init_hyperparams ⟨true, 8⟩ false "qwen2" =
      { device_map := some "auto", deepspeed := none, optim := "adamw_8bit",
        bf16 := true, fp16 := false,
        attn_implementation :=
          if py_startswith "qwen2" "gemma" then some "eager"
          else some "flash_attention_2" } :=
  init_high_capability_no_deepspeed "qwen2" 8 (by omega)

/-- C9: in `Tuner.sft` (with the completion-only toggle at its default,
disabled) the learning-rate scheduler type is constant when the dataset
has a text column and no instruct column, linear when it has an instruct
column; with neither column the pipeline fails with the
UnboundLocalError on `lr_scheduler_type` while assembling the training
arguments, before the trainer is invoked. -/
theorem sft_lr_scheduler (ds : DatasetShape) (strategy_attrs : List String) :
    (ds.has_text = true → ds.has_instruct = false →
      Tuner.sft_lr_scheduler_type ds = some "constant") ∧
    (ds.has_instruct = true →
      Tuner.sft_lr_scheduler_type ds = some "linear") ∧
    (ds.has_text = false → ds.has_instruct = false →
      Tuner.sft_pipeline strategy_attrs ds false =
        Except.error (SftError.unboundLocalError "lr_scheduler_type")) := by
  obtain ⟨t, i⟩ := ds
  refine ⟨?_, ?_, ?_⟩
  · intro ht hi
    subst ht; subst hi
    rfl
  · intro hi
    subst hi
    cases t <;> rfl
  · intro ht hi
    subst ht; subst hi
    rfl

/-- Witness for `sft_lr_scheduler` at the three concrete column shapes. -/
theorem sft_lr_scheduler_witness :
    Tuner.sft_lr_scheduler_type ⟨true, false⟩ = some "constant" ∧
    Tuner.sft_lr_scheduler_type ⟨false, true⟩ = some "linear" ∧
    Tuner.sft_pipeline BaseModel.instance_attributes ⟨false, false⟩ false =
      Except.error (SftError.unboundLocalError "lr_scheduler_type") :=
  ⟨(sft_lr_scheduler ⟨true, false⟩ []).1 rfl rfl,
   (sft_lr_scheduler ⟨false, true⟩ []).2.1 rfl,
   (sft_lr_scheduler ⟨false, false⟩ BaseModel.instance_attributes).2.2 rfl rfl⟩

/-- C10: formatting is deterministic: for every known family, identical
records yield identical formatted prompts (identical role/content
sequences). -/
theorem format_deterministic (s : ModelStrategy) (r1 r2 : Record)
    (h : r1 = r2) :
    s.prepare_chat_template r1 = s.prepare_chat_template r2 := by
  rw [h]

/-- Witness for `format_deterministic` at a concrete record. -/
theorem format_deterministic_witness :
    ModelStrategy.gemma.prepare_chat_template ⟨"inst", "inp", "out"⟩ =
      ModelStrategy.gemma.prepare_chat_template ⟨"inst", "inp", "out"⟩ :=
  format_deterministic ModelStrategy.gemma ⟨"inst", "inp", "out"⟩
    ⟨"inst", "inp", "out"⟩ rfl

end Tuningtron
